import Mathlib

/-!
Verification development for the cf-gnnexplainer repository.

The definitions below are a shallow embedding of the Python sources
(src/main_explain.py, src/cf_explanation/cf_explainer.py, src/utils/utils.py).
Real-valued tensors are modelled over the rationals; the non-finite float
values produced by the elementwise power in normalize_adj are modelled with
an Option-valued scalar function.  Python lists holding an epoch result
(cf_stats, which is either empty or a fixed record) are modelled with Option.
-/

namespace CFGNN

/-! ## Keyword-argument surface of CFExplainer (cf_explainer.py, main_explain.py)

Python calls CFExplainer(**expl_par): the call raises TypeError when some key
of the dictionary is not a parameter name of CFExplainer.__init__, or when a
parameter without a default value receives no argument. -/

/-- Parameter names of CFExplainer.__init__ (cf_explainer.py lines 20-22),
excluding self. -/
def CFExplainer_init_params : List String :=
  [ "model", "sub_adj", "num_nodes", "sub_feat", "n_hid", "dropout",
    "sub_labels", "num_classes", "beta", "cem_mode", "edge_del", "edge_add",
    "bernoulli", "delta", "device", "task", "verbose" ]

/-- Parameter names of CFExplainer.__init__ that have no default value. -/
def CFExplainer_required_params : List String :=
  [ "model", "sub_adj", "num_nodes", "sub_feat", "n_hid", "dropout",
    "sub_labels", "num_classes", "beta" ]

/-- Keys of the expl_par dictionary built by server_explain
(main_explain.py lines 134-141). -/
def server_expl_par_keys : List String :=
  [ "model", "cf_optimizer", "lr", "n_momentum", "sub_adj", "num_nodes",
    "sub_feat", "n_hid", "dropout", "sub_label", "num_classes", "alpha",
    "beta", "gamma", "task", "cem_mode", "edge_del", "edge_add", "delta",
    "bernoulli", "rand_init", "history", "hist_len", "div_hind", "device",
    "verbosity" ]

/-- Method names defined on the CFExplainer class (cf_explainer.py). -/
def CFExplainer_method_names : List String :=
  [ "explain_node", "train_node_expl", "explain_graph", "train_graph_expl" ]

/-- Python keyword-call success: every keyword is a declared parameter and
every parameter without a default is supplied. -/
def python_kwargs_call_ok (params required kwargs : List String) : Bool :=
  kwargs.all (fun k => params.contains k) &&
    required.all (fun r => kwargs.contains r)

/-- One iteration of the client_explain worker body (main_explain.py lines
64-92) on a task taken from the queue: it first constructs
CFExplainer(**expl_par), then calls explainer.explain(**expl_args); only if
both succeed is a result placed on the result queue (res_q.put).  The
embedding records the first Python exception raised, if any. -/
def client_explain_step : Except String Unit :=
  if ¬ python_kwargs_call_ok CFExplainer_init_params
      CFExplainer_required_params server_expl_par_keys then
    Except.error "TypeError: CFExplainer.__init__ got an unexpected keyword argument"
  else if ¬ CFExplainer_method_names.contains "explain" then
    Except.error "AttributeError: CFExplainer object has no attribute explain"
  else
    Except.ok ()

/-- Keys of expl_par that CFExplainer.__init__ does not accept. -/
def server_unexpected_keys : List String :=
  server_expl_par_keys.filter (fun k => ¬ CFExplainer_init_params.contains k)

/-! ## Configuration validation in CFExplainer.__init__
(cf_explainer.py lines 44-71). -/

/-- Which perturbation model class CFExplainer.__init__ constructs. -/
inductive CfModelVariant where
  | CEM (mode : String)
  | Delta
  | Orig
deriving DecidableEq, Repr

/-- Arguments of CFExplainer.__init__ that take part in the configuration
checks and in model-class selection (tensor and model arguments are omitted:
they play no role in lines 44-71). -/
structure CFExplainerArgs where
  n_hid : Nat
  dropout : ℚ
  beta : ℚ
  num_classes : Nat
  cem_mode : Option String
  edge_del : Bool
  edge_add : Bool
  bernoulli : Bool
  delta : Bool
  verbose : Bool
deriving DecidableEq, Repr

/-- The configuration-validation and model-selection logic of
CFExplainer.__init__ (cf_explainer.py lines 44-71): error with the
RuntimeError message when raised, otherwise the model class constructed.
Note lines 48-52: in the CEM branch the edge_del and edge_add flags are not
inspected and are not passed to GCNSyntheticPerturbCEM. -/
def cfExplainerInitCheck (a : CFExplainerArgs) : Except String CfModelVariant :=
  if a.cem_mode = none ∧ a.edge_del = false ∧ a.edge_add = false then
    Except.error "CFExplainer: need to specify allowed add/del op"
  else if a.cem_mode = some "PN" ∨ a.cem_mode = some "PP" then
    Except.ok (CfModelVariant.CEM (a.cem_mode.getD ""))
  else if a.cem_mode = none then
    (if a.delta then Except.ok CfModelVariant.Delta else Except.ok CfModelVariant.Orig)
  else
    Except.error "cf_explainer: the specified mode for CEM is invalid"

/-! ## Epoch records and the search loop
(cf_explainer.py, explain_node lines 101-133, explain_graph lines 226-257,
train_node_expl lines 190-210, train_graph_expl lines 312-332). -/

/-- The cf_stats record an epoch may produce (the fields of the Python list
that the later checks read: cf_stats[2] is cf_adj, cf_stats[-1] is
loss_graph_dist). -/
structure CFStats where
  cf_adj : List (List ℚ)
  y_pred_orig : Int
  y_pred_new_actual : Int
  loss_graph_dist : ℚ
deriving DecidableEq, Repr

/-- What one call of train_node_expl / train_graph_expl returns to the
search loop: cf_stats (empty list modelled as none) and loss_total.item(). -/
structure EpochOut where
  new_example : Option CFStats
  loss_total : ℚ
deriving DecidableEq, Repr

/-- cond_PP of the training step: PP mode and the thresholded actual
prediction equals the original prediction. -/
def cond_PP (m : Option String) (y_pred_new_actual y_pred_orig : Int) : Bool :=
  decide (m = some "PP") && decide (y_pred_new_actual = y_pred_orig)

/-- cond_cf of the training step: not PP mode and the thresholded actual
prediction differs from the original prediction. -/
def cond_cf (m : Option String) (y_pred_new_actual y_pred_orig : Int) : Bool :=
  decide (¬ m = some "PP") && decide (¬ y_pred_new_actual = y_pred_orig)

/-- The record-production step of train_node_expl / train_graph_expl
(cf_explainer.py lines 190-210 and 312-332): cf_stats is filled exactly when
cond_PP or cond_cf holds, and the epoch also reports loss_total. -/
def train_expl_out (m : Option String) (y_pred_new_actual y_pred_orig : Int)
    (stats : CFStats) (loss_total : ℚ) : EpochOut :=
  ⟨if cond_PP m y_pred_new_actual y_pred_orig ||
      cond_cf m y_pred_new_actual y_pred_orig then some stats else none,
   loss_total⟩

/-- The best-so-far state tracked by explain_node / explain_graph:
best_cf_example (initially the empty list), best_loss (initially np.inf,
modelled as none), num_cf_examples. -/
structure SearchState where
  best_cf_example : Option CFStats
  best_loss : Option ℚ
  num_cf_examples : Nat
deriving DecidableEq, Repr

/-- Comparison of a rational against best_loss, where none stands for the
initial np.inf: loss_total < best_loss. -/
def ltInf (x : ℚ) : Option ℚ → Bool
  | none => true
  | some b => decide (x < b)

/-- Initial search state of explain_node / explain_graph. -/
def searchInit : SearchState := ⟨none, none, 0⟩

/-- One epoch of the acceptance logic shared by explain_node (lines 104-116)
and explain_graph (lines 229-240): if new_example is non-empty and
loss_total < best_loss, the candidate replaces the tracked best. -/
def search_step (st : SearchState) (e : EpochOut) : SearchState :=
  match e.new_example with
  | none => st
  | some ex =>
      if ltInf e.loss_total st.best_loss then
        ⟨some ex, some e.loss_total, st.num_cf_examples + 1⟩
      else st

/-- The whole epoch loop of explain_node / explain_graph over a given
sequence of epoch results. -/
def explain_search (epochs : List EpochOut) : SearchState :=
  epochs.foldl search_step searchInit

/-! ## Post-loop validity checks of explain_node / explain_graph
(cf_explainer.py lines 118-133 and 242-257). -/

/-- The check `1 in np.diag(best_cf_example[2])`: some diagonal entry of the
matrix equals 1.  Entries outside the stored lists read as 0, as in a dense
array. -/
def diag_contains_one (m : List (List ℚ)) : Bool :=
  (List.range m.length).any (fun i => decide ((m.getD i []).getD i 0 = 1))

/-- The check `np.any(np.greater(best_cf_example[2], 1))`. -/
def any_greater_one (m : List (List ℚ)) : Bool :=
  m.any (fun r => r.any (fun x => decide (1 < x)))

/-- The check `np.any(np.less(best_cf_example[2], 0))`. -/
def any_less_zero (m : List (List ℚ)) : Bool :=
  m.any (fun r => r.any (fun x => decide (x < 0)))

/-- The four post-loop checks of explain_node / explain_graph on the tracked
best example (none models the empty list, which skips every check): the
first failing check raises the corresponding RuntimeError, otherwise the
best example is returned. -/
def post_loop_check (m : Option String) (best : Option CFStats) :
    Except String (Option CFStats) :=
  match best with
  | none => Except.ok none
  | some b =>
      if b.loss_graph_dist < 1 ∧ ¬ m = some "PP" then
        Except.error "cf_explainer: loss_graph_dist cannot be smaller than 1. Check symmetry"
      else if diag_contains_one b.cf_adj then
        Except.error "cf_explainer: cf_adj contains a self-connection. Invalid result."
      else if any_greater_one b.cf_adj then
        Except.error "cf_explainer: cf_adj contains values > 1. Invalid result."
      else if any_less_zero b.cf_adj then
        Except.error "cf_explainer: cf_adj contains values < 0. Invalid result."
      else Except.ok (some b)

/-! ## utils.py: BernoulliMLSample, get_degree_matrix, normalize_adj,
create_symm_matrix_tril. -/

/-- Forward pass of BernoulliMLSample (utils.py lines 12-18) on a dense
matrix: `(input >= 0.5).float()`, elementwise. -/
def bernoulli_ml_sample_forward (m : List (List ℚ)) : List (List ℚ) :=
  m.map (fun r => r.map (fun x => if (1 : ℚ) / 2 ≤ x then 1 else 0))

/-- Backward pass of BernoulliMLSample (utils.py lines 20-23): the upstream
gradient is returned unchanged. -/
def bernoulli_ml_sample_backward (grad_output : List (List ℚ)) :
    List (List ℚ) :=
  grad_output

/-- get_degree_matrix (utils.py lines 41-43): diagonal matrix of row sums. -/
def get_degree_matrix {n : Nat} (adj : Matrix (Fin n) (Fin n) ℚ) :
    Matrix (Fin n) (Fin n) ℚ :=
  Matrix.diagonal (fun i => ∑ j, adj i j)

/-- The clamp `D_tilde_exp[torch.isinf(D_tilde_exp)] = 0` (utils.py line
55): a non-finite float value (modelled as none) is replaced by 0. -/
def inf_to_zero : Option ℚ → ℚ
  | none => 0
  | some x => x

/-- normalize_adj (utils.py lines 46-60), default norm_eye = None branch.
The scalar function p models the elementwise float power x ** (-1/2): p d =
none stands for a non-finite float result, which the source clamps to 0; in
floats 0 ** (-1/2) = +inf, so p 0 = none.  The power is applied to every
entry of the full matrix D_tilde = get_degree_matrix (A + I), the result is
clamped, and the clamped matrix multiplies A_tilde on both sides. -/
def normalize_adj {n : Nat} (p : ℚ → Option ℚ)
    (batch_adj : Matrix (Fin n) (Fin n) ℚ) : Matrix (Fin n) (Fin n) ℚ :=
  Matrix.of (fun i j =>
      inf_to_zero (p (get_degree_matrix (batch_adj + 1) i j))) *
    (batch_adj + 1) *
    Matrix.of (fun i j =>
      inf_to_zero (p (get_degree_matrix (batch_adj + 1) i j)))

/-- Modelled from the spec sentence for the normalization formula: the
diagonal matrix (D+I)^(-1/2) - each diagonal entry the elementwise power of
the corresponding row sum of A+I, with a non-finite power (zero-degree row)
replaced by 0 - multiplied on both sides of A+I. -/
def normalize_adj_gcn_formula {n : Nat} (p : ℚ → Option ℚ)
    (batch_adj : Matrix (Fin n) (Fin n) ℚ) : Matrix (Fin n) (Fin n) ℚ :=
  Matrix.diagonal (fun i => inf_to_zero (p (∑ j, (batch_adj + 1) i j))) *
    (batch_adj + 1) *
    Matrix.diagonal (fun i => inf_to_zero (p (∑ j, (batch_adj + 1) i j)))

/-- create_symm_matrix_tril (utils.py lines 78-91) on a matrix of side
length orig, represented as a total function read only on indices below the
side length: `torch.tril(matrix, -1) + torch.tril(matrix, -1).t()`, then
zero padding on the bottom and right when final_side_len differs from the
side length.  Entries outside the produced size read as 0. -/
def create_symm_matrix_tril (matrix : Nat → Nat → ℚ) (orig final : Nat) :
    Nat → Nat → ℚ :=
  fun i j =>
    if i < orig ∧ j < orig then
      (if j < i then matrix i j else 0) + (if i < j then matrix j i else 0)
    else 0

/-- Side length of the tensor create_symm_matrix_tril returns: unchanged
when final_side_len equals the input side length, otherwise padded by
`abs(final_side_len - orig_side_len)` on the bottom and right. -/
def padded_side_len (orig final : Nat) : Nat :=
  if final = orig then orig else orig + Nat.dist final orig

/-! ## Output path derivation in server_explain
(main_explain.py lines 94-98 and 196-240). -/

/-- The full keyword-configuration surface of server_explain
(main_explain.py lines 94-98), dataset identified by its dataset_id. -/
structure ServerConfig where
  dataset_id : String
  hid_units : Nat
  n_layers : Nat
  dropout_r : ℚ
  seed : Nat
  lr : ℚ
  optimizer : String
  n_momentum : ℚ
  alpha : ℚ
  beta : ℚ
  gamma : ℚ
  num_epochs : Nat
  cem_mode : Option String
  edge_del : Bool
  edge_add : Bool
  delta : Bool
  bernoulli : Bool
  rand_init : ℚ
  history : Bool
  hist_len : Nat
  div_hind : Nat
  n_workers : Nat
  verbosity : Nat
deriving DecidableEq, Repr

/-- The destination path server_explain derives before the random-init
suffix loop (main_explain.py lines 196-228): the format string is built
from the mode flags and then formatted with (dataset_id, optimizer, lr,
alpha, beta, gamma, n_momentum, num_epochs, rand_init). -/
def dest_path (c : ServerConfig) : String :=
  let base := "../results/" ++ c.dataset_id
  let base :=
    if ¬ c.delta then
      (if c.edge_add then base ++ "_add_del"
       else if c.edge_del then base ++ "_del"
       else base) ++ "_orig"
    else
      (let b := if c.edge_add then base ++ "_add" else base
       let b := if c.edge_del then b ++ "_del" else b
       b ++ "_delta")
  let base := if c.bernoulli then base ++ "_bernoulli" else base
  let base := match c.cem_mode with
    | some m => base ++ "_" ++ m
    | none => base
  let base := base ++ "/" ++ c.optimizer ++ "/cf_examples_lr" ++ toString c.lr
    ++ "_alpha" ++ toString c.alpha ++ "_beta" ++ toString c.beta
    ++ "_gamma" ++ toString c.gamma ++ "_mom" ++ toString c.n_momentum
    ++ "_epochs" ++ toString c.num_epochs ++ "_init" ++ toString c.rand_init
  if c.rand_init > 0 then base ++ "_rand" else base

/-- The fields of the configuration that dest_path reads. -/
def dest_path_inputs (c : ServerConfig) :
    String × String × ℚ × ℚ × ℚ × ℚ × ℚ × Nat × Option String ×
      Bool × Bool × Bool × Bool × ℚ :=
  (c.dataset_id, c.optimizer, c.lr, c.alpha, c.beta, c.gamma, c.n_momentum,
   c.num_epochs, c.cem_mode, c.edge_del, c.edge_add, c.delta, c.bernoulli,
   c.rand_init)

/-- The counter loop of main_explain.py lines 230-237, with the filesystem
modelled by the predicate existsF and a fuel bound: the first counter k,
starting from the given one, with no existing file at path ++ toString k. -/
def pick_counter (existsF : String → Bool) (path : String) :
    Nat → Nat → Option Nat
  | 0, _ => none
  | fuel + 1, k =>
      if existsF (path ++ toString k) then pick_counter existsF path fuel (k + 1)
      else some k

/-- The path server_explain finally writes to (main_explain.py lines
227-240): dest_path itself when rand_init ≤ 0, otherwise dest_path with the
first free counter appended. -/
def write_path (existsF : String → Bool) (fuel : Nat) (c : ServerConfig) :
    Option String :=
  if c.rand_init > 0 then
    (pick_counter existsF (dest_path c) fuel 0).map
      (fun k => dest_path c ++ toString k)
  else some (dest_path c)

/-- A concrete configuration (the argument defaults of main_explain.py with
edge_del enabled). -/
def c10_a : ServerConfig :=
  ⟨ "syn1", 20, 3, 0, 42, 1/200, "SGD", 0, 1, 1/2, 0, 500, none,
    true, false, false, false, 1/2, true, 10, 5, 1, 0⟩

/-- The same configuration with a different seed. -/
def c10_b : ServerConfig :=
  ⟨ "syn1", 20, 3, 0, 43, 1/200, "SGD", 0, 1, 1/2, 0, 500, none,
    true, false, false, false, 1/2, true, 10, 5, 1, 0⟩

/-! ## Theorems -/

/-- C1: a task taken from the queue by client_explain fails at
CFExplainer(**expl_par): each of the listed keys of expl_par is not a
parameter name of CFExplainer.__init__ (which takes sub_labels and verbose
instead), CFExplainer defines no method named explain, and consequently the
worker body errors before res_q.put, so no result is ever placed on the
result queue. -/
theorem client_explain_always_fails :
    client_explain_step =
      Except.error "TypeError: CFExplainer.__init__ got an unexpected keyword argument" ∧
    ([ "cf_optimizer", "lr", "n_momentum", "alpha", "gamma", "rand_init",
       "history", "hist_len", "div_hind", "sub_label", "verbosity" ].all
      (fun k => server_unexpected_keys.contains k) = true) ∧
    CFExplainer_init_params.contains "sub_labels" = true ∧
    CFExplainer_init_params.contains "verbose" = true ∧
    CFExplainer_method_names.contains "explain" = false ∧
    client_explain_step.isOk = false := by
  exact ⟨rfl, by decide, by decide, by decide, by decide, rfl⟩

/-- C2 counterexample: in the search loop a valid candidate whose
graph-distance loss is less-than-or-equal to the best graph distance seen so
far does not replace the tracked best, because the code compares the total
loss, strictly: after an accepted first epoch (graph distance 2, total loss
1), a second valid epoch with graph distance 2 (≤ 2) but total loss 5 leaves
the state unchanged. -/
theorem search_accept_not_by_graph_dist :
    (explain_search
        [ ⟨some ⟨[[0, 1], [1, 0]], 0, 1, 2⟩, 1⟩ ]).best_cf_example =
      some ⟨[[0, 1], [1, 0]], 0, 1, 2⟩ ∧
    (CFStats.mk [[0, 0], [0, 0]] 0 1 2).loss_graph_dist ≤
      (CFStats.mk [[0, 1], [1, 0]] 0 1 2).loss_graph_dist ∧
    (explain_search
        [ ⟨some ⟨[[0, 1], [1, 0]], 0, 1, 2⟩, 1⟩,
          ⟨some ⟨[[0, 0], [0, 0]], 0, 1, 2⟩, 5⟩ ]) =
      explain_search [ ⟨some ⟨[[0, 1], [1, 0]], 0, 1, 2⟩, 1⟩ ] ∧
    (CFStats.mk [[0, 0], [0, 0]] 0 1 2) ≠ (CFStats.mk [[0, 1], [1, 0]] 0 1 2) := by
  decide

/-- C2 amended: in explain_node and explain_graph an epoch's candidate
replaces the tracked best exactly when the epoch produced a non-empty
example and its total loss is strictly less than the best total loss seen so
far (initially infinite); on replacement the best example, best loss and the
counter are updated, otherwise the state is unchanged. -/
theorem search_accept_iff_total_loss_lt (pre : List EpochOut) (e : EpochOut) :
    explain_search (pre ++ [e]) =
      (if e.new_example.isSome &&
          ltInf e.loss_total (explain_search pre).best_loss then
        ⟨e.new_example, some e.loss_total,
         (explain_search pre).num_cf_examples + 1⟩
      else explain_search pre) := by
  unfold explain_search
  rw [List.foldl_append]
  simp only [List.foldl_cons, List.foldl_nil]
  cases h : e.new_example with
  | none => simp [search_step, h]
  | some ex =>
      cases hlt :
          ltInf e.loss_total (List.foldl search_step searchInit pre).best_loss with
      | false => simp [search_step, h, hlt]
      | true => simp [search_step, h, hlt]

/-- C3 counterexample: constructing a CFExplainer with cem_mode = "PN" and
edge_add = true does not fail: the configuration checks of
CFExplainer.__init__ accept it and select the CEM perturbation model, the
edge flags being ignored in that branch. -/
theorem init_PN_edge_add_accepted :
    cfExplainerInitCheck
      ⟨20, 0, 1/2, 4, some "PN", false, true, false, false, false⟩ =
      Except.ok (CfModelVariant.CEM "PN") := by
  rfl

/-- C3 amended: constructing a CFExplainer with cem_mode = "PN" and
edge_add = true succeeds for every choice of the edit flags and of the
remaining parameters: in the CEM branch the constructor ignores edge_del and
edge_add and raises no configuration error. -/
theorem init_PN_ignores_edge_flags (n_hid : Nat) (dropout beta : ℚ)
    (num_classes : Nat) (edge_del edge_add bernoulli delta verbose : Bool) :
    cfExplainerInitCheck
      ⟨n_hid, dropout, beta, num_classes, some "PN", edge_del, edge_add,
       bernoulli, delta, verbose⟩ =
      Except.ok (CfModelVariant.CEM "PN") := by
  simp [cfExplainerInitCheck]

/-- C5: the training step returns a non-empty candidate record if and only
if the validity test holds: in PP mode the thresholded actual prediction
equals the original prediction, in every other mode it differs from it. -/
theorem train_expl_nonempty_iff (m : Option String)
    (y_pred_new_actual y_pred_orig : Int) (stats : CFStats) (loss_total : ℚ) :
    (train_expl_out m y_pred_new_actual y_pred_orig stats
        loss_total).new_example.isSome = true ↔
      (if m = some "PP" then y_pred_new_actual = y_pred_orig
       else ¬ y_pred_new_actual = y_pred_orig) := by
  by_cases hm : m = some "PP" <;>
    by_cases hy : y_pred_new_actual = y_pred_orig <;>
      simp [train_expl_out, cond_PP, cond_cf, hm, hy]

/-- C6: a CFExplainer constructed with cem_mode = None, edge_del = False and
edge_add = False fails eagerly with the configuration error of
cf_explainer.py line 45, whatever the remaining parameters are. -/
theorem init_no_op_rejected (n_hid : Nat) (dropout beta : ℚ)
    (num_classes : Nat) (bernoulli delta verbose : Bool) :
    cfExplainerInitCheck
      ⟨n_hid, dropout, beta, num_classes, none, false, false,
       bernoulli, delta, verbose⟩ =
      Except.error "CFExplainer: need to specify allowed add/del op" := by
  simp [cfExplainerInitCheck]

/-- The two numpy range checks together say exactly that every entry of the
matrix lies in the closed unit interval. -/
lemma entries_in_unit_range_iff (mtx : List (List ℚ)) :
    (any_greater_one mtx = false ∧ any_less_zero mtx = false) ↔
      ∀ r ∈ mtx, ∀ x ∈ r, 0 ≤ x ∧ x ≤ 1 := by
  have hgt : any_greater_one mtx = false ↔ ∀ r ∈ mtx, ∀ x ∈ r, x ≤ 1 := by
    simp [any_greater_one, List.any_eq_false]
  have hlt : any_less_zero mtx = false ↔ ∀ r ∈ mtx, ∀ x ∈ r, 0 ≤ x := by
    simp [any_less_zero, List.any_eq_false]
  rw [hgt, hlt]
  constructor
  · rintro ⟨h1, h2⟩ r hr x hx
    exact ⟨h2 r hr x hx, h1 r hr x hx⟩
  · intro h
    exact ⟨fun r hr x hx => (h r hr x hx).2, fun r hr x hx => (h r hr x hx).1⟩

/-- C4: when the epoch loop ends with a non-empty best example, explain_node
and explain_graph return it exactly when its graph-distance loss is at least
1 or cem_mode is PP, its cf_adj has no 1 on the diagonal, and every entry of
cf_adj lies in the unit interval; when one of those conditions fails the
post-loop checks end in a RuntimeError instead. -/
theorem post_loop_check_ok_iff (m : Option String) (b : CFStats) :
    (post_loop_check m (some b) = Except.ok (some b) ↔
      ((1 ≤ b.loss_graph_dist ∨ m = some "PP") ∧
        diag_contains_one b.cf_adj = false ∧
        ∀ r ∈ b.cf_adj, ∀ x ∈ r, 0 ≤ x ∧ x ≤ 1)) ∧
    ((post_loop_check m (some b)).isOk = false ↔
      ¬ ((1 ≤ b.loss_graph_dist ∨ m = some "PP") ∧
        diag_contains_one b.cf_adj = false ∧
        ∀ r ∈ b.cf_adj, ∀ x ∈ r, 0 ≤ x ∧ x ≤ 1)) := by
  have key : post_loop_check m (some b) = Except.ok (some b) ↔
      ((1 ≤ b.loss_graph_dist ∨ m = some "PP") ∧
        diag_contains_one b.cf_adj = false ∧
        ∀ r ∈ b.cf_adj, ∀ x ∈ r, 0 ≤ x ∧ x ≤ 1) := by
    rw [← entries_in_unit_range_iff]
    simp only [post_loop_check]
    split_ifs with h1 h2 h3 h4
    · exact iff_of_false (by simp)
        (fun hg => hg.1.elim (fun hle => absurd h1.1 (not_lt.mpr hle)) h1.2)
    · exact iff_of_false (by simp) (fun hg => by simp [hg.2.1] at h2)
    · exact iff_of_false (by simp) (fun hg => by simp [hg.2.2.1] at h3)
    · exact iff_of_false (by simp) (fun hg => by simp [hg.2.2.2] at h4)
    · refine iff_of_true rfl ⟨?_, ?_, ?_, ?_⟩
      · by_cases hd : 1 ≤ b.loss_graph_dist
        · exact Or.inl hd
        · exact Or.inr (not_not.mp (fun hne => h1 ⟨not_le.mp hd, hne⟩))
      · simpa using h2
      · simpa using h3
      · simpa using h4
  have cases_ok : post_loop_check m (some b) = Except.ok (some b) ∨
      (post_loop_check m (some b)).isOk = false := by
    simp only [post_loop_check]
    split_ifs <;> simp [Except.isOk, Except.toBool]
  refine ⟨key, ?_, ?_⟩
  · intro hf hg
    rw [key.mpr hg] at hf
    simp [Except.isOk, Except.toBool] at hf
  · intro hng
    rcases cases_ok with heq | hff
    · exact absurd (key.mp heq) hng
    · exact hff

/-- C7: on a square input of side length orig and any final side length at
least orig, create_symm_matrix_tril produces a tensor of side length exactly
final_side_len whose entries form a symmetric matrix with zero diagonal, the
rows and columns beyond the input side length (the bottom and right padding)
holding only zeros. -/
theorem create_symm_matrix_tril_ok (matrix : Nat → Nat → ℚ)
    (orig final : Nat) (h : orig ≤ final) :
    padded_side_len orig final = final ∧
    (∀ i j, create_symm_matrix_tril matrix orig final i j =
        create_symm_matrix_tril matrix orig final j i) ∧
    (∀ i, create_symm_matrix_tril matrix orig final i i = 0) ∧
    (∀ i j, orig ≤ i ∨ orig ≤ j →
        create_symm_matrix_tril matrix orig final i j = 0) := by
  refine ⟨?_, ?_, ?_, ?_⟩
  · unfold padded_side_len
    by_cases hfo : final = orig
    · simp [hfo]
    · rw [if_neg hfo, Nat.dist_comm, Nat.dist_eq_sub_of_le h]
      omega
  · intro i j
    by_cases hij : i < orig ∧ j < orig
    · have hji : j < orig ∧ i < orig := ⟨hij.2, hij.1⟩
      simp only [create_symm_matrix_tril, if_pos hij, if_pos hji]
      exact add_comm _ _
    · have hji : ¬ (j < orig ∧ i < orig) := fun hc => hij ⟨hc.2, hc.1⟩
      simp only [create_symm_matrix_tril, if_neg hij, if_neg hji]
  · intro i
    by_cases hi : i < orig ∧ i < orig
    · simp only [create_symm_matrix_tril, if_pos hi]
      simp
    · simp only [create_symm_matrix_tril, if_neg hi]
  · intro i j hij
    have hc : ¬ (i < orig ∧ j < orig) := by
      rintro ⟨hi, hj⟩
      rcases hij with hle | hle <;> omega
    simp only [create_symm_matrix_tril, if_neg hc]

/-- C7 witness: the theorem applied to the concrete 2 by 2 matrix of entry
values i + j, padded to side length 3. -/
theorem create_symm_matrix_tril_ok_witness :
    padded_side_len 2 3 = 3 ∧
    (∀ i j, create_symm_matrix_tril (fun i j => (i : ℚ) + j) 2 3 i j =
        create_symm_matrix_tril (fun i j => (i : ℚ) + j) 2 3 j i) ∧
    (∀ i, create_symm_matrix_tril (fun i j => (i : ℚ) + j) 2 3 i i = 0) ∧
    (∀ i j, 2 ≤ i ∨ 2 ≤ j →
        create_symm_matrix_tril (fun i j => (i : ℚ) + j) 2 3 i j = 0) :=
  create_symm_matrix_tril_ok (fun i j => (i : ℚ) + j) 2 3 (by decide)

/-- Reading one entry through a matrix-wide elementwise map, when the map
fixes the out-of-range default 0. -/
lemma map_map_getD (f : ℚ → ℚ) (h0 : f 0 = 0) (m : List (List ℚ))
    (i j : Nat) :
    ((m.map (fun r => r.map f)).getD i []).getD j 0 =
      f ((m.getD i []).getD j 0) := by
  simp only [List.getD_eq_getElem?_getD, List.getElem?_map]
  cases hrow : m[i]? with
  | none => simpa using h0.symm
  | some r =>
      simp only [Option.map_some', Option.getD_some, List.getElem?_map]
      cases hx : r[j]? with
      | none => simpa using h0.symm
      | some x => rfl

/-- C8: the forward pass of BernoulliMLSample maps every entry of its input
to 1 when the entry is at least one half and to 0 otherwise, so every entry
of the output is 0 or 1, and the backward pass returns the upstream gradient
unchanged. -/
theorem bernoulli_ml_sample_spec (m : List (List ℚ)) (i j : Nat) :
    ((bernoulli_ml_sample_forward m).getD i []).getD j 0 =
      (if (1 : ℚ) / 2 ≤ (m.getD i []).getD j 0 then 1 else 0) ∧
    (((bernoulli_ml_sample_forward m).getD i []).getD j 0 = 0 ∨
      ((bernoulli_ml_sample_forward m).getD i []).getD j 0 = 1) ∧
    (∀ grad_output : List (List ℚ),
      bernoulli_ml_sample_backward grad_output = grad_output) := by
  have h1 : ((bernoulli_ml_sample_forward m).getD i []).getD j 0 =
      (if (1 : ℚ) / 2 ≤ (m.getD i []).getD j 0 then 1 else 0) := by
    unfold bernoulli_ml_sample_forward
    rw [map_map_getD (fun x => if (1 : ℚ) / 2 ≤ x then 1 else 0) (by norm_num)]
  refine ⟨h1, ?_, fun g => rfl⟩
  rw [h1]
  by_cases hx : (1 : ℚ) / 2 ≤ (m.getD i []).getD j 0
  · exact Or.inr (by rw [if_pos hx])
  · exact Or.inl (by rw [if_neg hx])

/-- C9: normalize_adj computes exactly the GCN renormalization formula
(D+I)^(-1/2) (A+I) (D+I)^(-1/2), where D+I is the diagonal matrix of the
row sums of A+I and a non-finite inverse square root (in particular the one
a zero-degree row produces) is replaced by 0 before the multiplications;
the hypothesis p 0 = none states that the float power sends 0 to +inf. -/
theorem normalize_adj_eq_gcn_formula {n : Nat} (p : ℚ → Option ℚ)
    (batch_adj : Matrix (Fin n) (Fin n) ℚ) (hp : p 0 = none) :
    normalize_adj p batch_adj = normalize_adj_gcn_formula p batch_adj := by
  unfold normalize_adj normalize_adj_gcn_formula
  have hD : (Matrix.of (fun i j =>
      inf_to_zero (p (get_degree_matrix (batch_adj + 1) i j))) :
        Matrix (Fin n) (Fin n) ℚ) =
      Matrix.diagonal
        (fun i => inf_to_zero (p (∑ j, (batch_adj + 1) i j))) := by
    ext i j
    by_cases hij : i = j
    · subst hij
      simp [get_degree_matrix]
    · simp [get_degree_matrix, Matrix.diagonal_apply_ne _ hij, hp,
        inf_to_zero]
  rw [hD]

/-- C9 witness: the theorem applied to the everywhere-non-finite power and
the 2 by 2 identity adjacency. -/
theorem normalize_adj_eq_gcn_formula_witness :
    normalize_adj (fun _ => none) (1 : Matrix (Fin 2) (Fin 2) ℚ) =
      normalize_adj_gcn_formula (fun _ => none) 1 :=
  normalize_adj_eq_gcn_formula (fun _ => none) 1 rfl

/-- C10 counterexample: two configurations that differ in the seed (42 and
43) derive the identical persistence path, so the derived output path is not
an injective function of the configuration. -/
theorem dest_path_not_injective :
    dest_path c10_a = dest_path c10_b ∧
    c10_a ≠ c10_b ∧ c10_a.seed ≠ c10_b.seed := by
  exact ⟨rfl, by decide, by decide⟩

/-- The counter loop stops at a counter whose file does not exist. -/
lemma pick_counter_free (existsF : String → Bool) (path : String) :
    ∀ fuel k k0, pick_counter existsF path fuel k = some k0 →
      existsF (path ++ toString k0) = false := by
  intro fuel
  induction fuel with
  | zero =>
      intro k k0 hpk
      simp [pick_counter] at hpk
  | succ f ih =>
      intro k k0 hpk
      unfold pick_counter at hpk
      by_cases he : existsF (path ++ toString k)
      · rw [if_pos he] at hpk
        exact ih (k + 1) k0 hpk
      · rw [if_neg he] at hpk
        have hk : k = k0 := Option.some.inj hpk
        subst hk
        simpa using he

/-- C10 amended: the derived persistence path is a function of only the
fields it encodes (dataset_id, optimizer, lr, alpha, beta, gamma,
n_momentum, num_epochs, cem_mode, the edit and formulation flags, and
rand_init) - two configurations agreeing on those derive the same path even
when they differ in seed, hidden units, history length cap, diversity window
size or worker count - and when rand_init > 0 an incrementing numeric suffix
is chosen so that the file finally written never collides with an existing
file. -/
theorem dest_path_amended (c1 c2 : ServerConfig)
    (h : dest_path_inputs c1 = dest_path_inputs c2) :
    dest_path c1 = dest_path c2 ∧
    (∀ (existsF : String → Bool) (fuel : Nat) (q : String),
      0 < c1.rand_init → write_path existsF fuel c1 = some q →
        existsF q = false) := by
  constructor
  · cases c1
    cases c2
    simp only [dest_path_inputs, Prod.mk.injEq] at h
    obtain ⟨h1, h2, h3, h4, h5, h6, h7, h8, h9, h10, h11, h12, h13, h14⟩ := h
    subst h1; subst h2; subst h3; subst h4; subst h5; subst h6; subst h7
    subst h8; subst h9; subst h10; subst h11; subst h12; subst h13; subst h14
    rfl
  · intro existsF fuel q hri hw
    unfold write_path at hw
    rw [if_pos hri] at hw
    rcases Option.map_eq_some'.mp hw with ⟨k, hpk, hq⟩
    subst hq
    exact pick_counter_free existsF (dest_path c1) fuel 0 k hpk

/-- C10 amended witness: the theorem applied to the two concrete
configurations differing only in the seed. -/
theorem dest_path_amended_witness :
    dest_path c10_a = dest_path c10_b ∧
    (∀ (existsF : String → Bool) (fuel : Nat) (q : String),
      0 < c10_a.rand_init → write_path existsF fuel c10_a = some q →
        existsF q = false) :=
  dest_path_amended c10_a c10_b rfl

end CFGNN

